import Mathlib

set_option maxHeartbeats 1000000

/-!
Shallow embedding of the network interception and request-lifecycle engine
in `src/spider_chrome/src/handler/network.rs` (struct `NetworkManager` and
its handlers), together with theorems settling the specification claims.

Modelling conventions:
- `HashMap K V` is embedded as the function `K → Option V`; `HashSet K` as
  `K → Bool`; `VecDeque` as a `List` with `push_back` appending at the end
  and `poll` (`pop_front`) taking the head.
- Protocol identifiers (`RequestId`, `InterceptionId`) are strings.
- `serde_json::to_value` of the command parameter structs used here never
  fails at runtime, so `push_cdp_request` is modelled as always enqueuing
  the (structured) command.
- The `#[cfg(not(feature = "adblock"))]` variant of `on_fetch_request_paused`
  is the one embedded, as in the claims.
-/

abbrev RequestId := String
abbrev InterceptionId := String

/-- Rust `str::starts_with`, embedded as a character-sequence prefix test. -/
def strStartsWith (s p : String) : Bool := p.toList.isPrefixOf s.toList

/-- CDP `network::Response`, modelled opaquely: the engine only stores and
forwards it, never inspects its fields. -/
structure Response where
  status : Int
  url : String
  deriving DecidableEq, Repr

/-- CDP `network::ResourceType` variants. -/
inductive ResourceType where
  | document
  | stylesheet
  | image
  | media
  | font
  | script
  | textTrack
  | xhr
  | fetch
  | prefetch
  | eventSource
  | webSocket
  | manifest
  | signedExchange
  | ping
  | cspViolationReport
  | preflight
  | other
  deriving DecidableEq, BEq, Repr

/-- Source `ResourceType::as_ref()`: the wire string of each variant. -/
def resourceTypeAsRef : ResourceType → String
  | .document => "Document"
  | .stylesheet => "Stylesheet"
  | .image => "Image"
  | .media => "Media"
  | .font => "Font"
  | .script => "Script"
  | .textTrack => "TextTrack"
  | .xhr => "XHR"
  | .fetch => "Fetch"
  | .prefetch => "Prefetch"
  | .eventSource => "EventSource"
  | .webSocket => "WebSocket"
  | .manifest => "Manifest"
  | .signedExchange => "SignedExchange"
  | .ping => "Ping"
  | .cspViolationReport => "CSPViolationReport"
  | .preflight => "Preflight"
  | .other => "Other"

/-- Source `JS_FRAMEWORK_ALLOW`: allowed js frameworks and libs (exact URL match). -/
def JS_FRAMEWORK_ALLOW : List String :=
  [ "jquery.min.js", "jquery.qtip.min.js", "jquery.js", "angular.js", "jquery.slim.js",
    "react.development.js", "react-dom.development.js", "react.production.min.js",
    "react-dom.production.min.js", "vue.global.js", "vue.esm-browser.js", "vue.js",
    "bootstrap.min.js", "bootstrap.bundle.min.js", "bootstrap.esm.min.js", "d3.min.js",
    "d3.js",
    "https://m.stripe.network/inner.html",
    "https://m.stripe.network/out-4.5.43.js",
    "https://challenges.cloudflare.com/turnstile",
    "https://js.stripe.com/v3/" ]

/-- Source `IGNORE_VISUAL_RESOURCE_MAP`: resource kinds ignored as visual content. -/
def IGNORE_VISUAL_RESOURCE_MAP : List String := ["Image", "Media", "Font", "Other"]

/-- Source `IGNORE_NETWORKING_RESOURCE_MAP`: background-networking resource kinds. -/
def IGNORE_NETWORKING_RESOURCE_MAP : List String := ["Prefetch", "Ping"]

/-- CDP `network::Request` payload; only the fields this engine reads. -/
structure Request where
  url : String
  deriving DecidableEq, Repr

/-- CDP `EventRequestWillBeSent`; only the fields this engine reads. -/
structure EventRequestWillBeSent where
  request_id : RequestId
  frame_id : Option String
  request : Request
  redirect_response : Option Response
  deriving DecidableEq, Repr

/-- CDP `fetch::EventRequestPaused`; only the fields this engine reads.
`request_id` lives in the fetch/interception id namespace. -/
structure EventRequestPaused where
  request_id : InterceptionId
  network_id : Option RequestId
  resource_type : ResourceType
  request : Request
  deriving DecidableEq, Repr

/-- CDP `fetch::EventAuthRequired`; only the request id is read. -/
structure EventAuthRequired where
  request_id : RequestId
  deriving DecidableEq, Repr

/-- CDP `EventResponseReceived`; only the fields this engine reads. -/
structure EventResponseReceived where
  request_id : RequestId
  response : Response
  deriving DecidableEq, Repr

/-- CDP `EventLoadingFinished`; only the request id is read. -/
structure EventLoadingFinished where
  request_id : RequestId
  deriving DecidableEq, Repr

/-- CDP `EventLoadingFailed`; only the fields this engine reads. -/
structure EventLoadingFailed where
  request_id : RequestId
  error_text : String
  deriving DecidableEq, Repr

/-- CDP `EventRequestServedFromCache`; only the request id is read. -/
structure EventRequestServedFromCache where
  request_id : RequestId
  deriving DecidableEq, Repr

/-- Source `crate::auth::Credentials`. -/
structure Credentials where
  username : String
  password : String
  deriving DecidableEq, Repr

/-- Modelled from the spec: the Tracked Request type `HttpRequest` lives in
`src/spider_chrome/src/handler/http.rs`, which is not part of the provided
sources; its constructor and field set are reconstructed from the spec's
"Tracked Request" data model (§3) and from every use site in `network.rs`:
`HttpRequest::new(request_id, frame_id, interception_id, allow_interception,
redirect_chain)`, and the fields `redirect_chain`, `response` (written via
`set_response`), `from_memory_cache`, `failure_text`, `interception_id`. -/
inductive HttpRequest : Type where
  | mk (request_id : RequestId)
       (frame_id : Option String)
       (interception_id : Option InterceptionId)
       (allow_interception : Bool)
       (redirect_chain : List HttpRequest)
       (response : Option Response)
       (from_memory_cache : Bool)
       (failure_text : Option String)

def HttpRequest.request_id : HttpRequest → RequestId
  | .mk rid _ _ _ _ _ _ _ => rid

def HttpRequest.frame_id : HttpRequest → Option String
  | .mk _ fid _ _ _ _ _ _ => fid

def HttpRequest.interception_id : HttpRequest → Option InterceptionId
  | .mk _ _ iid _ _ _ _ _ => iid

def HttpRequest.allow_interception : HttpRequest → Bool
  | .mk _ _ _ ai _ _ _ _ => ai

def HttpRequest.redirect_chain : HttpRequest → List HttpRequest
  | .mk _ _ _ _ chain _ _ _ => chain

def HttpRequest.response : HttpRequest → Option Response
  | .mk _ _ _ _ _ resp _ _ => resp

def HttpRequest.from_memory_cache : HttpRequest → Bool
  | .mk _ _ _ _ _ _ fmc _ => fmc

def HttpRequest.failure_text : HttpRequest → Option String
  | .mk _ _ _ _ _ _ _ ft => ft

/-- Modelled from the spec: `HttpRequest::new` (in the missing `http.rs`)
initializes the identity fields and redirect chain from its arguments and
leaves `response`, `from_memory_cache`, `failure_text` at their defaults
(spec §3: `response` optional, `from_memory_cache` boolean set later,
`failure_text` optional set on failure). -/
def HttpRequest.new (request_id : RequestId) (frame_id : Option String)
    (interception_id : Option InterceptionId) (allow_interception : Bool)
    (redirect_chain : List HttpRequest) : HttpRequest :=
  .mk request_id frame_id interception_id allow_interception redirect_chain none false none

/-- Modelled from the spec: `HttpRequest::set_response` (missing `http.rs`)
stores the response on the Tracked Request (spec §3: `response` is set when
a response or redirect response arrives). -/
def HttpRequest.set_response : HttpRequest → Response → HttpRequest
  | .mk rid fid iid ai chain _ fmc ft, resp => .mk rid fid iid ai chain (some resp) fmc ft

/-- Field update for `request.redirect_chain` (`std::mem::take` writes `[]`). -/
def HttpRequest.set_redirect_chain : HttpRequest → List HttpRequest → HttpRequest
  | .mk rid fid iid ai _ resp fmc ft, chain => .mk rid fid iid ai chain resp fmc ft

/-- Field update for `request.from_memory_cache = true`. -/
def HttpRequest.set_from_memory_cache : HttpRequest → Bool → HttpRequest
  | .mk rid fid iid ai chain resp _ ft, fmc => .mk rid fid iid ai chain resp fmc ft

/-- Field update for `request.failure_text = Some(..)`. -/
def HttpRequest.set_failure_text : HttpRequest → Option String → HttpRequest
  | .mk rid fid iid ai chain resp fmc _, ft => .mk rid fid iid ai chain resp fmc ft

/-- Source `AuthChallengeResponseResponse` variants. -/
inductive AuthResponseKind where
  | default
  | cancelAuth
  | provideCredentials
  deriving DecidableEq, Repr

/-- Source `fetch::AuthChallengeResponse`. -/
structure AuthChallengeResponse where
  response : AuthResponseKind
  username : Option String
  password : Option String
  deriving DecidableEq, Repr

/-- The outbound CDP commands this engine pushes, as a closed tagged type
(method identifier plus typed parameters instead of serialized JSON). -/
inductive CdpCommand where
  | setExtraHttpHeaders (headers : String → Option String)
  | setCacheDisabled (cache_disabled : Bool)
  | fetchEnable (handle_auth_requests : Bool) (url_pattern : String)
  | fetchDisable
  | continueRequest (request_id : InterceptionId)
  | fulfillRequest (request_id : InterceptionId) (response_code : Nat)
  | continueWithAuth (request_id : RequestId) (auth : AuthChallengeResponse)
  | emulateNetworkConditions (offline : Bool) (latency : Nat)
      (download_throughput : Int) (upload_throughput : Int)

/-- Source `enum NetworkEvent`. -/
inductive NetworkEvent where
  | sendCdpRequest (cmd : CdpCommand)
  | request (id : RequestId)
  | response (id : RequestId)
  | requestFailed (r : HttpRequest)
  | requestFinished (r : HttpRequest)

/-- Source `struct NetworkManager` (the `request_timeout` duration is carried but
never read by the embedded handlers). -/
structure NetworkManager where
  queued_events : List NetworkEvent
  ignore_httpserrors : Bool
  requests : RequestId → Option HttpRequest
  requests_will_be_sent : RequestId → Option EventRequestWillBeSent
  extra_headers : String → Option String
  request_id_to_interception_id : RequestId → Option InterceptionId
  user_cache_disabled : Bool
  attempted_authentications : RequestId → Bool
  credentials : Option Credentials
  user_request_interception_enabled : Bool
  protocol_request_interception_enabled : Bool
  offline : Bool
  request_timeout : Nat
  ignore_visuals : Bool
  block_stylesheets : Bool
  block_javascript : Bool
  only_html : Bool

/-- Pointwise map update, the meaning of `HashMap::insert` / `::remove`. -/
def updateMap {α : Type} (m : RequestId → Option α) (k : RequestId) (v : Option α) :
    RequestId → Option α :=
  fun k' => if k' = k then v else m k'

/-- Source `NetworkManager::new`. -/
def NetworkManager.new (ignore_httpserrors : Bool) (request_timeout : Nat) : NetworkManager :=
  { queued_events := []
    ignore_httpserrors := ignore_httpserrors
    requests := fun _ => none
    requests_will_be_sent := fun _ => none
    extra_headers := fun _ => none
    request_id_to_interception_id := fun _ => none
    user_cache_disabled := false
    attempted_authentications := fun _ => false
    credentials := none
    user_request_interception_enabled := false
    protocol_request_interception_enabled := false
    offline := false
    request_timeout := request_timeout
    ignore_visuals := false
    block_stylesheets := false
    block_javascript := false
    only_html := false }

/-- Source `NetworkManager::push_cdp_request` (serialization modelled as total). -/
def push_cdp_request (s : NetworkManager) (cmd : CdpCommand) : NetworkManager :=
  { s with queued_events := s.queued_events ++ [NetworkEvent.sendCdpRequest cmd] }

/-- Source `NetworkManager::poll`. -/
def NetworkManager.poll (s : NetworkManager) : Option NetworkEvent × NetworkManager :=
  match s.queued_events with
  | [] => (none, s)
  | e :: rest => (some e, { s with queued_events := rest })

/-- The header map after `self.extra_headers.remove("proxy-authorization")`. -/
def strip_proxy_auth (h : String → Option String) : String → Option String :=
  fun k => if k = "proxy-authorization" then none else h k

/-- Source `NetworkManager::set_extra_headers`. -/
def set_extra_headers (s : NetworkManager) (headers : String → Option String) : NetworkManager :=
  let s := { s with extra_headers := strip_proxy_auth headers }
  push_cdp_request s (.setExtraHttpHeaders s.extra_headers)

/-- Source `NetworkManager::update_protocol_cache_disabled`. -/
def update_protocol_cache_disabled (s : NetworkManager) : NetworkManager :=
  push_cdp_request s
    (.setCacheDisabled (s.user_cache_disabled || s.protocol_request_interception_enabled))

/-- Source `NetworkManager::update_protocol_request_interception`. Note: as in the
source, the recomputed `enabled` value is compared with the stored
`protocol_request_interception_enabled` flag but never written back to it. -/
def update_protocol_request_interception (s : NetworkManager) : NetworkManager :=
  let enabled := s.user_request_interception_enabled || s.credentials.isSome
  if enabled = s.protocol_request_interception_enabled then s
  else
    let s := update_protocol_cache_disabled s
    if enabled then
      push_cdp_request s (.fetchEnable true "*")
    else
      push_cdp_request s .fetchDisable

/-- Source `NetworkManager::set_request_interception`. -/
def set_request_interception (s : NetworkManager) (enabled : Bool) : NetworkManager :=
  update_protocol_request_interception { s with user_request_interception_enabled := enabled }

/-- Source `NetworkManager::set_cache_enabled`. -/
def set_cache_enabled (s : NetworkManager) (enabled : Bool) : NetworkManager :=
  update_protocol_cache_disabled { s with user_cache_disabled := !enabled }

/-- Source `NetworkManager::authenticate`. -/
def authenticate (s : NetworkManager) (credentials : Credentials) : NetworkManager :=
  update_protocol_request_interception { s with credentials := some credentials }

/-- Source `NetworkManager::set_offline_mode`. -/
def set_offline_mode (s : NetworkManager) (value : Bool) : NetworkManager :=
  if s.offline = value then s
  else
    let s := { s with offline := value }
    push_cdp_request s (.emulateNetworkConditions s.offline 0 (-1) (-1))

/-- Source `NetworkManager::handle_request_redirect`: stamp the redirect response
and clear the request's interception id from `attempted_authentications`. -/
def handle_request_redirect (s : NetworkManager) (request : HttpRequest) (response : Response) :
    NetworkManager × HttpRequest :=
  let request := request.set_response response
  let s :=
    match request.interception_id with
    | some interception_id =>
        { s with attempted_authentications :=
            fun k => if k = interception_id then false else s.attempted_authentications k }
    | none => s
  (s, request)

/-- Source `NetworkManager::on_request` (finalization). -/
def on_request (s : NetworkManager) (event : EventRequestWillBeSent)
    (interception_id : Option InterceptionId) : NetworkManager :=
  let step :=
    match event.redirect_response with
    | some redirect_resp =>
      match s.requests event.request_id with
      | some request =>
        let s := { s with requests := updateMap s.requests event.request_id none }
        let pair := handle_request_redirect s request redirect_resp
        let s := pair.1
        let request := pair.2
        let redirect_chain := request.redirect_chain
        let request := request.set_redirect_chain []
        (s, redirect_chain ++ [request])
      | none => (s, ([] : List HttpRequest))
    | none => (s, ([] : List HttpRequest))
  let s := step.1
  let redirect_chain := step.2
  let request := HttpRequest.new event.request_id event.frame_id interception_id
    s.user_request_interception_enabled redirect_chain
  let s := { s with requests := updateMap s.requests event.request_id (some request) }
  { s with queued_events := s.queued_events ++ [NetworkEvent.request event.request_id] }

/-- Source `NetworkManager::on_request_will_be_sent`. -/
def on_request_will_be_sent (s : NetworkManager) (event : EventRequestWillBeSent) :
    NetworkManager :=
  if s.protocol_request_interception_enabled
      && !(strStartsWith event.request.url "data:") then
    match s.request_id_to_interception_id event.request_id with
    | some interception_id =>
      let s := { s with
        request_id_to_interception_id :=
          updateMap s.request_id_to_interception_id event.request_id none }
      on_request s event (some interception_id)
    | none =>
      { s with requests_will_be_sent :=
          updateMap s.requests_will_be_sent event.request_id (some event) }
  else
    on_request s event none

/-- Source `NetworkManager::on_fetch_request_paused`, non-adblock variant. -/
def on_fetch_request_paused (s : NetworkManager) (event : EventRequestPaused) : NetworkManager :=
  if !s.user_request_interception_enabled && s.protocol_request_interception_enabled then
    push_cdp_request s (.continueRequest event.request_id)
  else
    match event.network_id with
    | some network_id =>
      match s.requests_will_be_sent network_id with
      | some request_will_be_sent =>
        let s := { s with
          requests_will_be_sent := updateMap s.requests_will_be_sent network_id none }
        on_request s request_will_be_sent (some event.request_id)
      | none =>
        let skip_networking :=
          IGNORE_NETWORKING_RESOURCE_MAP.contains (resourceTypeAsRef event.resource_type)
          || s.ignore_visuals
              && IGNORE_VISUAL_RESOURCE_MAP.contains (resourceTypeAsRef event.resource_type)
          || s.block_stylesheets && (event.resource_type == ResourceType.stylesheet)
          || s.block_javascript && (event.resource_type == ResourceType.script)
              && !(JS_FRAMEWORK_ALLOW.contains event.request.url)
          || (!s.block_javascript
                && strStartsWith event.request.url "https://www.google-analytics.com"
              || strStartsWith event.request.url "https://www.googletagmanager.com"
              || strStartsWith event.request.url "https://px.ads.linkedin.com")
        if skip_networking then
          push_cdp_request s (.fulfillRequest event.request_id 200)
        else
          push_cdp_request s (.continueRequest event.request_id)
    | none => push_cdp_request s (.continueRequest event.request_id)

/-- Source `NetworkManager::on_fetch_auth_required`. -/
def on_fetch_auth_required (s : NetworkManager) (event : EventAuthRequired) : NetworkManager :=
  let pair :=
    if s.attempted_authentications event.request_id then
      (s, AuthResponseKind.cancelAuth)
    else if s.credentials.isSome then
      ({ s with attempted_authentications :=
          fun k => if k = event.request_id then true else s.attempted_authentications k },
       AuthResponseKind.provideCredentials)
    else
      (s, AuthResponseKind.default)
  let s := pair.1
  let response := pair.2
  let auth : AuthChallengeResponse :=
    match s.credentials with
    | some creds =>
      { response := response, username := some creds.username, password := some creds.password }
    | none => { response := response, username := none, password := none }
  push_cdp_request s (.continueWithAuth event.request_id auth)

/-- Source `NetworkManager::on_request_served_from_cache`. -/
def on_request_served_from_cache (s : NetworkManager) (event : EventRequestServedFromCache) :
    NetworkManager :=
  match s.requests event.request_id with
  | some request =>
    { s with requests :=
        updateMap s.requests event.request_id (some (request.set_from_memory_cache true)) }
  | none => s

/-- Source `NetworkManager::on_response_received`. -/
def on_response_received (s : NetworkManager) (event : EventResponseReceived) : NetworkManager :=
  match s.requests event.request_id with
  | some request =>
    let request := request.set_response event.response
    { s with
      requests := updateMap s.requests event.request_id none
      queued_events := s.queued_events ++ [NetworkEvent.requestFinished request] }
  | none => s

/-- Source `NetworkManager::on_network_loading_finished`. -/
def on_network_loading_finished (s : NetworkManager) (event : EventLoadingFinished) :
    NetworkManager :=
  match s.requests event.request_id with
  | some request =>
    let s := { s with requests := updateMap s.requests event.request_id none }
    let s :=
      match request.interception_id with
      | some interception_id =>
        { s with attempted_authentications :=
            fun k => if k = interception_id then false else s.attempted_authentications k }
      | none => s
    { s with queued_events := s.queued_events ++ [NetworkEvent.requestFinished request] }
  | none => s

/-- Source `NetworkManager::on_network_loading_failed`. -/
def on_network_loading_failed (s : NetworkManager) (event : EventLoadingFailed) :
    NetworkManager :=
  match s.requests event.request_id with
  | some request =>
    let request := request.set_failure_text (some event.error_text)
    let s := { s with requests := updateMap s.requests event.request_id none }
    let s :=
      match request.interception_id with
      | some interception_id =>
        { s with attempted_authentications :=
            fun k => if k = interception_id then false else s.attempted_authentications k }
      | none => s
    { s with queued_events := s.queued_events ++ [NetworkEvent.requestFailed request] }
  | none => s

/-- The inbound surface of the engine: every protocol event handler and every
configuration call, as one alphabet for reachability reasoning. -/
inductive Inbound where
  | requestWillBeSent (e : EventRequestWillBeSent)
  | fetchRequestPaused (e : EventRequestPaused)
  | authRequired (e : EventAuthRequired)
  | responseReceived (e : EventResponseReceived)
  | loadingFinished (e : EventLoadingFinished)
  | loadingFailed (e : EventLoadingFailed)
  | servedFromCache (e : EventRequestServedFromCache)
  | setExtraHeadersCall (h : String → Option String)
  | setRequestInterceptionCall (b : Bool)
  | setCacheEnabledCall (b : Bool)
  | authenticateCall (c : Credentials)
  | setOfflineModeCall (b : Bool)

/-- Dispatch one inbound event or configuration call to its handler. -/
def applyInbound (s : NetworkManager) : Inbound → NetworkManager
  | .requestWillBeSent e => on_request_will_be_sent s e
  | .fetchRequestPaused e => on_fetch_request_paused s e
  | .authRequired e => on_fetch_auth_required s e
  | .responseReceived e => on_response_received s e
  | .loadingFinished e => on_network_loading_finished s e
  | .loadingFailed e => on_network_loading_failed s e
  | .servedFromCache e => on_request_served_from_cache s e
  | .setExtraHeadersCall h => set_extra_headers s h
  | .setRequestInterceptionCall b => set_request_interception s b
  | .setCacheEnabledCall b => set_cache_enabled s b
  | .authenticateCall c => authenticate s c
  | .setOfflineModeCall b => set_offline_mode s b

/-- Run a sequence of inbound events / configuration calls. -/
def runInbound (s : NetworkManager) (es : List Inbound) : NetworkManager :=
  es.foldl applyInbound s

/-- The `response` kind carried by the last queued command, when that command
is a continue-with-auth; used to observe the auth decision of
`on_fetch_auth_required`. -/
def last_auth_kind (s : NetworkManager) : Option AuthResponseKind :=
  match s.queued_events.getLast? with
  | some (NetworkEvent.sendCdpRequest (CdpCommand.continueWithAuth _ auth)) => some auth.response
  | _ => none


/-! ### Concrete inputs used by claim counterexamples and evaluations -/

def rC4 : HttpRequest := HttpRequest.new "r" none (some "i") false []

def sC4 : NetworkManager :=
  { NetworkManager.new false 0 with
      requests := updateMap (fun _ => none) "r" (some rC4)
      attempted_authentications := fun k => k = "i" }

def sC8 : NetworkManager :=
  { NetworkManager.new false 0 with
      user_request_interception_enabled := true
      block_javascript := true }

def eC8 : EventRequestPaused :=
  ⟨"i", some "n", ResourceType.fetch, ⟨"https://www.google-analytics.com/collect"⟩⟩

def s0C1 : NetworkManager :=
  { NetworkManager.new false 0 with
      protocol_request_interception_enabled := true
      user_request_interception_enabled := true }

def wbsC1 : EventRequestWillBeSent := ⟨"r", none, ⟨"https://example.org/"⟩, none⟩

def pausedC1 : EventRequestPaused :=
  ⟨"i", some "r", ResourceType.document, ⟨"https://example.org/"⟩⟩

/-- The C2 inductive invariant: the derived interception flag is never set
(no assignment to it exists in the code), hence the will-be-sent buffer
never receives an entry. -/
def InvC2 (s : NetworkManager) : Prop :=
  s.protocol_request_interception_enabled = false
  ∧ ∀ id, s.requests_will_be_sent id = none


/-! ## Claim theorems -/

/-- Claim C9 Header hygiene: `set_extra_headers` queues exactly one
set-extra-http-headers command whose header map has no proxy-authorization
entry, the stored extra-headers configuration has no proxy-authorization
entry afterwards, and the command is pushed unconditionally (the equation
holds for every state and every header map, including maps equal to the
currently stored ones). -/
theorem C9_header_hygiene (s : NetworkManager) (headers : String → Option String) :
    (set_extra_headers s headers).queued_events
      = s.queued_events
        ++ [NetworkEvent.sendCdpRequest
             (CdpCommand.setExtraHttpHeaders (strip_proxy_auth headers))]
    ∧ strip_proxy_auth headers "proxy-authorization" = none
    ∧ (set_extra_headers s headers).extra_headers "proxy-authorization" = none := by
  refine ⟨rfl, by simp [strip_proxy_auth], ?_⟩
  simp [set_extra_headers, push_cdp_request, strip_proxy_auth]

/-- Claim C10 Whenever credentials are configured, `on_fetch_auth_required`
attaches the stored username and password to the queued continue-with-auth
command regardless of the chosen response kind (cancel-auth when the
identifier was already attempted, provide-credentials otherwise). -/
theorem C10_credentials_always_attached (s : NetworkManager) (event : EventAuthRequired)
    (c : Credentials) (h : s.credentials = some c) :
    (on_fetch_auth_required s event).queued_events
      = s.queued_events
        ++ [NetworkEvent.sendCdpRequest (CdpCommand.continueWithAuth event.request_id
             { response :=
                 if s.attempted_authentications event.request_id then
                   AuthResponseKind.cancelAuth
                 else AuthResponseKind.provideCredentials,
               username := some c.username,
               password := some c.password })] := by
  cases hA : s.attempted_authentications event.request_id <;>
    simp [on_fetch_auth_required, hA, h, push_cdp_request]

theorem C10_credentials_always_attached_witness :
    (on_fetch_auth_required
        { NetworkManager.new false 0 with
            credentials := some ⟨"user", "pass"⟩
            attempted_authentications := fun k => k = "r" }
        ⟨"r"⟩).queued_events
      = [NetworkEvent.sendCdpRequest (CdpCommand.continueWithAuth "r"
          { response := if ({ NetworkManager.new false 0 with
                credentials := some ⟨"user", "pass"⟩
                attempted_authentications := fun k => k = "r" } :
                  NetworkManager).attempted_authentications "r" then
              AuthResponseKind.cancelAuth
            else AuthResponseKind.provideCredentials,
            username := some "user", password := some "pass" })] :=
  C10_credentials_always_attached _ ⟨"r"⟩ ⟨"user", "pass"⟩ rfl

/-- Claim C3 Terminal removal: there is at most one live Tracked Request per
identifier (the in-flight map is keyed, so a lookup yields at most one
value), and immediately after processing any of the three terminal events
(response-received, loading-finished, loading-failed) the identifier is
absent from the in-flight map. -/
theorem C3_terminal_removal (s : NetworkManager) (e1 : EventResponseReceived)
    (e2 : EventLoadingFinished) (e3 : EventLoadingFailed) :
    ((on_response_received s e1).requests e1.request_id = none)
    ∧ ((on_network_loading_finished s e2).requests e2.request_id = none)
    ∧ ((on_network_loading_failed s e3).requests e3.request_id = none)
    ∧ (∀ id v w, s.requests id = some v → s.requests id = some w → v = w) := by
  refine ⟨?_, ?_, ?_, ?_⟩
  · cases h : s.requests e1.request_id <;> simp [on_response_received, h, updateMap]
  · cases h : s.requests e2.request_id
    · simp [on_network_loading_finished, h]
    · simp only [on_network_loading_finished, h]
      split <;> simp [updateMap]
  · cases h : s.requests e3.request_id
    · simp [on_network_loading_failed, h]
    · simp only [on_network_loading_failed, h]
      split <;> simp [updateMap]
  · intro id v w hv hw
    rw [hv] at hw
    exact Option.some.inj hw

theorem C3_terminal_removal_witness :
    ((on_response_received
        { NetworkManager.new false 0 with
            requests := updateMap (fun _ => none) "r" (some (HttpRequest.new "r" none none false [])) }
        ⟨"r", ⟨200, "https://example.org/"⟩⟩).requests "r" = none)
    ∧ (HttpRequest.new "r" none none false []) = (HttpRequest.new "r" none none false []) := by
  have h := C3_terminal_removal
    { NetworkManager.new false 0 with
        requests := updateMap (fun _ => none) "r" (some (HttpRequest.new "r" none none false [])) }
    ⟨"r", ⟨200, "https://example.org/"⟩⟩ ⟨"r"⟩ ⟨"r", "err"⟩
  exact ⟨h.1, h.2.2.2 "r" _ _ rfl rfl⟩

/-- Claim C4 (counterexample) The claim states that `on_response_received`
does not itself remove the entry from the in-flight map; on the concrete
state `sC4`, which tracks `"r"` in-flight, processing a response-received
event for `"r"` leaves the in-flight map without the identifier. -/
theorem C4_response_received_removes_counterexample :
    sC4.requests "r" = some rC4
    ∧ (on_response_received sC4 ⟨"r", ⟨200, "https://example.org/"⟩⟩).requests "r" = none
    ∧ (on_response_received sC4 ⟨"r", ⟨200, "https://example.org/"⟩⟩).queued_events
        = [NetworkEvent.requestFinished (rC4.set_response ⟨200, "https://example.org/"⟩)] :=
  ⟨rfl, rfl, rfl⟩

/-- Claim C4 (amended) For every tracked identifier: `on_response_received`
stamps the response onto the Tracked Request, queues a finished terminal
event, removes the entry from the in-flight map, and leaves
`attempted_authentications` untouched; `on_network_loading_finished` and
`on_network_loading_failed` also remove the entry, and both clear the
request's interception identifier (when present) from
`attempted_authentications`. -/
theorem C4_terminal_semantics_amended (s : NetworkManager)
    (e1 : EventResponseReceived) (e2 : EventLoadingFinished) (e3 : EventLoadingFailed)
    (r1 r2 r3 : HttpRequest) :
    (s.requests e1.request_id = some r1 →
      (on_response_received s e1).requests e1.request_id = none
      ∧ (on_response_received s e1).queued_events
          = s.queued_events ++ [NetworkEvent.requestFinished (r1.set_response e1.response)]
      ∧ ∀ k, (on_response_received s e1).attempted_authentications k
          = s.attempted_authentications k)
    ∧ (s.requests e2.request_id = some r2 →
      (on_network_loading_finished s e2).requests e2.request_id = none
      ∧ (on_network_loading_finished s e2).queued_events
          = s.queued_events ++ [NetworkEvent.requestFinished r2]
      ∧ ∀ iid, r2.interception_id = some iid →
          (on_network_loading_finished s e2).attempted_authentications iid = false)
    ∧ (s.requests e3.request_id = some r3 →
      (on_network_loading_failed s e3).requests e3.request_id = none
      ∧ (on_network_loading_failed s e3).queued_events
          = s.queued_events
            ++ [NetworkEvent.requestFailed (r3.set_failure_text (some e3.error_text))]
      ∧ ∀ iid, r3.interception_id = some iid →
          (on_network_loading_failed s e3).attempted_authentications iid = false) := by
  refine ⟨?_, ?_, ?_⟩
  · intro h
    simp [on_response_received, h, updateMap]
  · intro h
    refine ⟨?_, ?_, ?_⟩
    · cases hi : r2.interception_id <;> simp [on_network_loading_finished, h, hi, updateMap]
    · cases hi : r2.interception_id <;> simp [on_network_loading_finished, h, hi, updateMap]
    · intro iid hi
      simp [on_network_loading_finished, h, hi, updateMap]
  · intro h
    refine ⟨?_, ?_, ?_⟩
    · cases hi : (r3.set_failure_text (some e3.error_text)).interception_id <;>
        simp [on_network_loading_failed, h, hi, updateMap]
    · cases hi : (r3.set_failure_text (some e3.error_text)).interception_id <;>
        simp [on_network_loading_failed, h, hi, updateMap]
    · intro iid hi
      have hi' : (r3.set_failure_text (some e3.error_text)).interception_id = some iid := by
        cases r3; simpa [HttpRequest.set_failure_text, HttpRequest.interception_id] using hi
      simp [on_network_loading_failed, h, hi', updateMap]

theorem C4_terminal_semantics_amended_witness :
    ((on_network_loading_finished sC4 ⟨"r"⟩).requests "r" = none
      ∧ (on_network_loading_finished sC4 ⟨"r"⟩).queued_events
          = sC4.queued_events ++ [NetworkEvent.requestFinished rC4]
      ∧ ∀ iid, rC4.interception_id = some iid →
          (on_network_loading_finished sC4 ⟨"r"⟩).attempted_authentications iid = false) :=
  (C4_terminal_semantics_amended sC4 ⟨"r", ⟨200, "u"⟩⟩ ⟨"r"⟩ ⟨"r", "err"⟩ rC4 rC4 rC4).2.1 rfl

/-- On a freshly pushed command, `last_auth_kind` observes exactly the auth
response kind of that command (and nothing for other command kinds). -/
theorem last_auth_kind_push (s : NetworkManager) (id : RequestId)
    (auth : AuthChallengeResponse) :
    last_auth_kind (push_cdp_request s (CdpCommand.continueWithAuth id auth))
      = some auth.response := by
  simp [last_auth_kind, push_cdp_request]

/-- Claim C6 Auth retry bound: with credentials configured and the identifier
not yet attempted, two consecutive auth-required events yield
provide-credentials then cancel-auth; moreover a provide-credentials answer
happens only when the identifier is not in `attempted_authentications` and
always records it there, and while the identifier is in
`attempted_authentications` every auth-required event is answered with
cancel-auth — so the engine never answers provide-credentials twice for an
identifier without it being cleared from `attempted_authentications` in
between. -/
theorem C6_auth_retry_bound :
    (∀ (s : NetworkManager) (e : EventAuthRequired) (c : Credentials),
      s.credentials = some c → s.attempted_authentications e.request_id = false →
      last_auth_kind (on_fetch_auth_required s e) = some AuthResponseKind.provideCredentials
      ∧ last_auth_kind (on_fetch_auth_required (on_fetch_auth_required s e) e)
          = some AuthResponseKind.cancelAuth)
    ∧ (∀ (s : NetworkManager) (e : EventAuthRequired),
      last_auth_kind (on_fetch_auth_required s e) = some AuthResponseKind.provideCredentials →
      s.attempted_authentications e.request_id = false
      ∧ (on_fetch_auth_required s e).attempted_authentications e.request_id = true)
    ∧ (∀ (s : NetworkManager) (e : EventAuthRequired),
      s.attempted_authentications e.request_id = true →
      last_auth_kind (on_fetch_auth_required s e) = some AuthResponseKind.cancelAuth) := by
  refine ⟨?_, ?_, ?_⟩
  · intro s e c hc hA
    constructor
    · simp [on_fetch_auth_required, hA, hc, last_auth_kind_push]
    · have h2 : ∀ (q : List NetworkEvent) (x y : NetworkEvent),
          (q ++ [x, y]).getLast? = some y := by
        intro q x y
        rw [List.getLast?_append_cons]
        rfl
      simp [on_fetch_auth_required, hA, hc, push_cdp_request, last_auth_kind, h2]
  · intro s e h
    cases hA : s.attempted_authentications e.request_id
    · cases hc : s.credentials
      · simp [on_fetch_auth_required, hA, hc, last_auth_kind_push] at h
      · simp [on_fetch_auth_required, hA, hc, push_cdp_request]
    · cases hc : s.credentials <;>
        simp [on_fetch_auth_required, hA, hc, last_auth_kind_push] at h
  · intro s e hA
    cases hc : s.credentials <;> simp [on_fetch_auth_required, hA, hc, last_auth_kind_push]

theorem C6_auth_retry_bound_witness :
    last_auth_kind (on_fetch_auth_required
        { NetworkManager.new false 0 with credentials := some ⟨"user", "pass"⟩ } ⟨"r"⟩)
      = some AuthResponseKind.provideCredentials
    ∧ last_auth_kind (on_fetch_auth_required (on_fetch_auth_required
        { NetworkManager.new false 0 with credentials := some ⟨"user", "pass"⟩ } ⟨"r"⟩) ⟨"r"⟩)
      = some AuthResponseKind.cancelAuth :=
  C6_auth_retry_bound.1
    { NetworkManager.new false 0 with credentials := some ⟨"user", "pass"⟩ }
    ⟨"r"⟩ ⟨"user", "pass"⟩ rfl rfl

/-- Claim C7 (counterexample) The claim states that calling
`set_request_interception` with arguments leaving the derived flag unchanged
queues nothing, and that a transition queues exactly one enable-interception
command: from a fresh manager, calling `set_request_interception true` twice
queues the cache-disabled and enable-interception commands twice — the second
(argument-identical) call queues two more commands, because
`update_protocol_request_interception` never stores the recomputed flag. -/
theorem C7_idempotence_counterexample :
    (set_request_interception (set_request_interception (NetworkManager.new false 0) true)
        true).queued_events
      = [NetworkEvent.sendCdpRequest (CdpCommand.setCacheDisabled false),
         NetworkEvent.sendCdpRequest (CdpCommand.fetchEnable true "*"),
         NetworkEvent.sendCdpRequest (CdpCommand.setCacheDisabled false),
         NetworkEvent.sendCdpRequest (CdpCommand.fetchEnable true "*")]
    ∧ (set_request_interception (set_request_interception (NetworkManager.new false 0) true)
        true).protocol_request_interception_enabled = false :=
  ⟨rfl, rfl⟩

/-- Claim C7 (amended) `set_request_interception` queues nothing exactly when
the recomputed derived flag equals the stored
`protocol_request_interception_enabled` — which the code never updates, so
repeated transitions re-emit commands each time; on a derived-flag
transition it queues, in order, one cache-disabled command (pushed
unconditionally, not only when the derived cache value changed) and then one
enable-interception (handle-auth, match-all) or disable-interception
command; `set_cache_enabled` always queues exactly one cache-disabled
command, even when the derived cache value is unchanged. -/
theorem C7_mode_reconciler_amended :
    (∀ (s : NetworkManager) (b : Bool),
      (b || s.credentials.isSome) = s.protocol_request_interception_enabled →
      (set_request_interception s b).queued_events = s.queued_events)
    ∧ (∀ (s : NetworkManager) (b : Bool),
      (b || s.credentials.isSome) = true →
      s.protocol_request_interception_enabled = false →
      (set_request_interception s b).queued_events
        = s.queued_events
          ++ [NetworkEvent.sendCdpRequest (CdpCommand.setCacheDisabled s.user_cache_disabled),
              NetworkEvent.sendCdpRequest (CdpCommand.fetchEnable true "*")]
      ∧ (set_request_interception s b).protocol_request_interception_enabled = false)
    ∧ (∀ (s : NetworkManager) (b : Bool),
      (b || s.credentials.isSome) = false →
      s.protocol_request_interception_enabled = true →
      (set_request_interception s b).queued_events
        = s.queued_events
          ++ [NetworkEvent.sendCdpRequest (CdpCommand.setCacheDisabled true),
              NetworkEvent.sendCdpRequest CdpCommand.fetchDisable]
      ∧ (set_request_interception s b).protocol_request_interception_enabled = true)
    ∧ (∀ (s : NetworkManager) (b : Bool),
      (set_cache_enabled s b).queued_events
        = s.queued_events
          ++ [NetworkEvent.sendCdpRequest (CdpCommand.setCacheDisabled
                (!b || s.protocol_request_interception_enabled))]) := by
  refine ⟨?_, ?_, ?_, ?_⟩
  · intro s b h
    simp [set_request_interception, update_protocol_request_interception, h]
  · intro s b h hp
    constructor
    · simp [set_request_interception, update_protocol_request_interception, h, hp,
        update_protocol_cache_disabled, push_cdp_request]
    · simp [set_request_interception, update_protocol_request_interception, h, hp,
        update_protocol_cache_disabled, push_cdp_request]
  · intro s b h hp
    constructor
    · simp [set_request_interception, update_protocol_request_interception, h, hp,
        update_protocol_cache_disabled, push_cdp_request]
    · simp [set_request_interception, update_protocol_request_interception, h, hp,
        update_protocol_cache_disabled, push_cdp_request]
  · intro s b
    simp [set_cache_enabled, update_protocol_cache_disabled, push_cdp_request]

theorem C7_mode_reconciler_amended_witness :
    (set_request_interception (NetworkManager.new false 0) true).queued_events
      = (NetworkManager.new false 0).queued_events
        ++ [NetworkEvent.sendCdpRequest
              (CdpCommand.setCacheDisabled (NetworkManager.new false 0).user_cache_disabled),
            NetworkEvent.sendCdpRequest (CdpCommand.fetchEnable true "*")]
    ∧ (set_request_interception (NetworkManager.new false 0)
          true).protocol_request_interception_enabled = false :=
  C7_mode_reconciler_amended.2.1 (NetworkManager.new false 0) true rfl rfl

/-- Claim C8 (counterexample) The claim states that a paused request whose URL
starts with `https://www.google-analytics.com` is blocked regardless of
`block_javascript`: on the concrete state `sC8` (user interception enabled,
`block_javascript = true`, no buffered will-be-sent event) the paused fetch
request to `https://www.google-analytics.com/collect` is continued, not
fulfilled. -/
theorem C8_ga_not_blocked_counterexample :
    sC8.block_javascript = true
    ∧ sC8.user_request_interception_enabled = true
    ∧ sC8.requests_will_be_sent "n" = none
    ∧ strStartsWith eC8.request.url "https://www.google-analytics.com" = true
    ∧ (on_fetch_request_paused sC8 eC8).queued_events
        = [NetworkEvent.sendCdpRequest (CdpCommand.continueRequest "i")] :=
  ⟨rfl, rfl, rfl, by decide, rfl⟩

/-- Claim C8 (amended) For every paused event carrying a network identifier
with no buffered will-be-sent event, processed with user interception
enabled: a URL starting with `https://www.googletagmanager.com` or
`https://px.ads.linkedin.com` is blocked (fulfilled with an empty status-200
response) regardless of `block_javascript`, while a URL starting with
`https://www.google-analytics.com` is blocked this way when
`block_javascript` is false. -/
theorem C8_tracker_block_amended (s : NetworkManager) (e : EventRequestPaused)
    (n : RequestId) (hu : s.user_request_interception_enabled = true)
    (hn : e.network_id = some n) (hb : s.requests_will_be_sent n = none)
    (hurl : strStartsWith e.request.url "https://www.googletagmanager.com" = true
      ∨ strStartsWith e.request.url "https://px.ads.linkedin.com" = true
      ∨ (s.block_javascript = false
          ∧ strStartsWith e.request.url "https://www.google-analytics.com" = true)) :
    (on_fetch_request_paused s e).queued_events
      = s.queued_events
        ++ [NetworkEvent.sendCdpRequest (CdpCommand.fulfillRequest e.request_id 200)] := by
  rcases hurl with h | h | ⟨hbj, h⟩
  · simp [on_fetch_request_paused, hu, hn, hb, h, push_cdp_request]
  · simp [on_fetch_request_paused, hu, hn, hb, h, push_cdp_request]
  · simp [on_fetch_request_paused, hu, hn, hb, h, hbj, push_cdp_request]

theorem C8_tracker_block_amended_witness :
    (on_fetch_request_paused
        { NetworkManager.new false 0 with user_request_interception_enabled := true }
        ⟨"i", some "n", ResourceType.script, ⟨"https://www.googletagmanager.com/gtm.js"⟩⟩).queued_events
      = ({ NetworkManager.new false 0 with
            user_request_interception_enabled := true } : NetworkManager).queued_events
        ++ [NetworkEvent.sendCdpRequest (CdpCommand.fulfillRequest "i" 200)] :=
  C8_tracker_block_amended _ _ "n" rfl rfl rfl (Or.inl (by decide))

/-- Claim C1 Pairing order dependence, evaluated at the failing input: with the
derived protocol interception flag enabled and a non-data URL, delivering
will-be-sent then paused finalizes the request (it is in the in-flight map
and a request-observed notification is queued), but delivering paused then
will-be-sent does not: the paused handler never records the interception
identifier in `request_id_to_interception_id` (no code path writes that
map), so the later will-be-sent event is buffered forever, the in-flight map
stays empty for the identifier, and no request-observed notification is
queued — refuting order independence. -/
theorem C1_pairing_order_dependence :
    ((on_fetch_request_paused (on_request_will_be_sent s0C1 wbsC1) pausedC1).requests
        "r").isSome = true
    ∧ (on_fetch_request_paused (on_request_will_be_sent s0C1 wbsC1) pausedC1).queued_events
        = [NetworkEvent.request "r"]
    ∧ (on_fetch_request_paused s0C1 pausedC1).request_id_to_interception_id "r" = none
    ∧ (on_request_will_be_sent (on_fetch_request_paused s0C1 pausedC1) wbsC1).requests "r"
        = none
    ∧ ((on_request_will_be_sent (on_fetch_request_paused s0C1 pausedC1)
          wbsC1).requests_will_be_sent "r").isSome = true
    ∧ (on_request_will_be_sent (on_fetch_request_paused s0C1 pausedC1) wbsC1).queued_events
        = [NetworkEvent.sendCdpRequest (CdpCommand.continueRequest "i")] :=
  ⟨by decide, rfl, rfl, rfl, by decide, rfl⟩

/-- Claim C5 Redirect chain ordering: three chained will-be-sent events A, B, C
on one identifier (B carrying A's redirect response, C carrying B's) leave a
final Tracked Request whose redirect chain is exactly the A-leg followed by
the B-leg, oldest first; and in general each finalization with a redirect
response appends the prior tracked request (response stamped, own chain
emptied) after its own earlier chain as the new chain. -/
theorem C5_redirect_chain_order
    (s : NetworkManager) (a b c : EventRequestWillBeSent) (ra rb : Response)
    (hflag : s.protocol_request_interception_enabled = false)
    (hb : b.request_id = a.request_id) (hc : c.request_id = a.request_id)
    (har : a.redirect_response = none) (hbr : b.redirect_response = some ra)
    (hcr : c.redirect_response = some rb) :
    ((on_request_will_be_sent (on_request_will_be_sent (on_request_will_be_sent s a) b)
        c).requests a.request_id
      = some (HttpRequest.new a.request_id c.frame_id none
          s.user_request_interception_enabled
          [(HttpRequest.new a.request_id a.frame_id none
              s.user_request_interception_enabled []).set_response ra,
           (HttpRequest.new a.request_id b.frame_id none
              s.user_request_interception_enabled []).set_response rb]))
    ∧ (∀ (s' : NetworkManager) (e : EventRequestWillBeSent) (iid : Option InterceptionId)
        (prior : HttpRequest) (resp : Response),
      e.redirect_response = some resp → s'.requests e.request_id = some prior →
      (on_request s' e iid).requests e.request_id
        = some (HttpRequest.new e.request_id e.frame_id iid
            s'.user_request_interception_enabled
            (prior.redirect_chain ++ [(prior.set_response resp).set_redirect_chain []]))) := by
  constructor
  · simp [on_request_will_be_sent, on_request, handle_request_redirect, hflag, hb, hc,
      har, hbr, hcr, updateMap, HttpRequest.new, HttpRequest.set_response,
      HttpRequest.set_redirect_chain, HttpRequest.interception_id, HttpRequest.redirect_chain,
      push_cdp_request]
  · intro s' e iid prior resp hr hp
    cases prior with
    | mk rid fid piid ai chain presp fmc ft =>
      cases piid <;>
        simp [on_request, handle_request_redirect, hr, hp, updateMap, HttpRequest.new,
          HttpRequest.set_response, HttpRequest.set_redirect_chain, HttpRequest.interception_id,
          HttpRequest.redirect_chain]

theorem C5_redirect_chain_order_witness :
    ((on_request_will_be_sent (on_request_will_be_sent (on_request_will_be_sent
        (NetworkManager.new false 0) ⟨"r", none, ⟨"https://a.example/"⟩, none⟩)
        ⟨"r", some "f", ⟨"https://b.example/"⟩, some ⟨301, "https://a.example/"⟩⟩)
        ⟨"r", none, ⟨"https://c.example/"⟩, some ⟨302, "https://b.example/"⟩⟩).requests "r"
      = some (HttpRequest.new "r" none none false
          [(HttpRequest.new "r" none none false []).set_response ⟨301, "https://a.example/"⟩,
           (HttpRequest.new "r" (some "f") none false []).set_response
             ⟨302, "https://b.example/"⟩])) :=
  (C5_redirect_chain_order (NetworkManager.new false 0)
    ⟨"r", none, ⟨"https://a.example/"⟩, none⟩
    ⟨"r", some "f", ⟨"https://b.example/"⟩, some ⟨301, "https://a.example/"⟩⟩
    ⟨"r", none, ⟨"https://c.example/"⟩, some ⟨302, "https://b.example/"⟩⟩
    ⟨301, "https://a.example/"⟩ ⟨302, "https://b.example/"⟩
    rfl rfl rfl rfl rfl rfl).1

/-- Finalization never touches the derived interception flag or the
will-be-sent buffer. -/
theorem on_request_preserves (s : NetworkManager) (e : EventRequestWillBeSent)
    (iid : Option InterceptionId) :
    ((on_request s e iid).protocol_request_interception_enabled
        = s.protocol_request_interception_enabled)
    ∧ (∀ id, (on_request s e iid).requests_will_be_sent id = s.requests_will_be_sent id) := by
  cases hr : e.redirect_response with
  | none => simp [on_request, hr]
  | some resp =>
    cases hq : s.requests e.request_id with
    | none => simp [on_request, hr, hq]
    | some request =>
      cases request with
      | mk rid fid piid ai chain presp fmc ft =>
        cases piid <;>
          simp [on_request, handle_request_redirect, hr, hq, HttpRequest.set_response,
            HttpRequest.interception_id, HttpRequest.redirect_chain,
            HttpRequest.set_redirect_chain]

/-- Under the (reachability) invariant, a paused event only pushes a single
command and otherwise leaves the state unchanged. -/
theorem on_fetch_request_paused_under_inv (s : NetworkManager) (ev : EventRequestPaused)
    (h1 : s.protocol_request_interception_enabled = false)
    (h2 : ∀ id, s.requests_will_be_sent id = none) :
    ∃ cmd, on_fetch_request_paused s ev = push_cdp_request s cmd := by
  have hc : (!s.user_request_interception_enabled
      && s.protocol_request_interception_enabled) = false := by
    rw [h1, Bool.and_false]
  unfold on_fetch_request_paused
  rw [hc]
  simp only [Bool.false_eq_true, if_false]
  cases hn : ev.network_id with
  | none => exact ⟨_, rfl⟩
  | some n =>
    simp only [h2]
    split
    · exact ⟨_, rfl⟩
    · exact ⟨_, rfl⟩

/-- Every single inbound event or configuration call preserves the C2
invariant. -/
theorem invC2_step (s : NetworkManager) (e : Inbound) (h : InvC2 s) :
    InvC2 (applyInbound s e) := by
  obtain ⟨h1, h2⟩ := h
  cases e with
  | requestWillBeSent ev =>
    have hred : applyInbound s (.requestWillBeSent ev) = on_request s ev none := by
      simp [applyInbound, on_request_will_be_sent, h1]
    rw [hred]
    exact ⟨(on_request_preserves s ev none).1.trans h1,
           fun id => ((on_request_preserves s ev none).2 id).trans (h2 id)⟩
  | fetchRequestPaused ev =>
    obtain ⟨cmd, hcmd⟩ := on_fetch_request_paused_under_inv s ev h1 h2
    show InvC2 (on_fetch_request_paused s ev)
    rw [hcmd]
    exact ⟨h1, h2⟩
  | authRequired ev =>
    constructor
    · simp only [applyInbound, on_fetch_auth_required, push_cdp_request]
      split
      · exact h1
      · split
        · exact h1
        · exact h1
    · intro id
      simp only [applyInbound, on_fetch_auth_required, push_cdp_request]
      split
      · exact h2 id
      · split
        · exact h2 id
        · exact h2 id
  | responseReceived ev =>
    cases hq : s.requests ev.request_id <;>
      exact ⟨by simp [applyInbound, on_response_received, hq, h1],
             fun id => by simp [applyInbound, on_response_received, hq, h2 id]⟩
  | loadingFinished ev =>
    constructor
    · simp only [applyInbound, on_network_loading_finished]
      split
      · split <;> simp [h1]
      · exact h1
    · intro id
      simp only [applyInbound, on_network_loading_finished]
      split
      · split <;> simp [h2 id]
      · exact h2 id
  | loadingFailed ev =>
    constructor
    · simp only [applyInbound, on_network_loading_failed]
      split
      · split <;> simp [h1]
      · exact h1
    · intro id
      simp only [applyInbound, on_network_loading_failed]
      split
      · split <;> simp [h2 id]
      · exact h2 id
  | servedFromCache ev =>
    cases hq : s.requests ev.request_id <;>
      exact ⟨by simp [applyInbound, on_request_served_from_cache, hq, h1],
             fun id => by simp [applyInbound, on_request_served_from_cache, hq, h2 id]⟩
  | setExtraHeadersCall hdr =>
    exact ⟨by simp [applyInbound, set_extra_headers, push_cdp_request, h1],
           fun id => by simp [applyInbound, set_extra_headers, push_cdp_request, h2 id]⟩
  | setRequestInterceptionCall b =>
    constructor
    · simp only [applyInbound, set_request_interception, update_protocol_request_interception,
        update_protocol_cache_disabled, push_cdp_request]
      split <;> [exact h1; split <;> exact h1]
    · intro id
      simp only [applyInbound, set_request_interception, update_protocol_request_interception,
        update_protocol_cache_disabled, push_cdp_request]
      split <;> [exact h2 id; split <;> exact h2 id]
  | setCacheEnabledCall b =>
    exact ⟨by simp [applyInbound, set_cache_enabled, update_protocol_cache_disabled,
             push_cdp_request, h1],
           fun id => by simp [applyInbound, set_cache_enabled, update_protocol_cache_disabled,
             push_cdp_request, h2 id]⟩
  | authenticateCall c =>
    constructor
    · simp only [applyInbound, authenticate, update_protocol_request_interception,
        update_protocol_cache_disabled, push_cdp_request]
      split <;> [exact h1; split <;> exact h1]
    · intro id
      simp only [applyInbound, authenticate, update_protocol_request_interception,
        update_protocol_cache_disabled, push_cdp_request]
      split <;> [exact h2 id; split <;> exact h2 id]
  | setOfflineModeCall b =>
    constructor
    · simp only [applyInbound, set_offline_mode, push_cdp_request]
      split <;> simp [h1]
    · intro id
      simp only [applyInbound, set_offline_mode, push_cdp_request]
      split <;> simp [h2 id]

theorem invC2_run (es : List Inbound) (s : NetworkManager) (h : InvC2 s) :
    InvC2 (runInbound s es) := by
  induction es generalizing s with
  | nil => exact h
  | cons e es ih => exact ih _ (invC2_step s e h)

/-- Claim C2 Buffer/in-flight disjointness: in every state reachable from a
fresh manager by any sequence of inbound protocol events and configuration
calls, no request identifier is simultaneously a key of the
`requests_will_be_sent` buffer and of the in-flight `requests` map (in fact
the buffer is always empty: the derived interception flag guarding the only
buffer insertion is never set by any code path). -/
theorem C2_buffer_inflight_disjoint (ih : Bool) (rt : Nat) (es : List Inbound)
    (id : RequestId) :
    ((runInbound (NetworkManager.new ih rt) es).requests_will_be_sent id = none)
    ∨ ((runInbound (NetworkManager.new ih rt) es).requests id = none) :=
  Or.inl ((invC2_run es (NetworkManager.new ih rt) ⟨rfl, fun _ => rfl⟩).2 id)
